import Mathlib

/-!
Verification of `fuser_method_mappings.py` (quantization fusion registry):
a shallow embedding of the module model, the fusion functions, the two
dispatch tables and the two lookup functions, together with theorems about
the lookup contract, the error behaviour of the fusion functions, and the
equivalence between the reversed-pattern table and the list table.
-/

namespace FuserMethodMappings

/-- The layer / fused-container classes that occur in the file: the
`torch.nn` input types and the `torch.nn.intrinsic` fused output types. -/
inductive ModType where
  | Conv1d | Conv2d | Conv3d
  | BatchNorm1d | BatchNorm2d | BatchNorm3d
  | ReLU | Linear
  | ConvTranspose1d | ConvTranspose2d | ConvTranspose3d
  | ConvBn1d | ConvBn2d | ConvBn3d
  | ConvBnReLU1d | ConvBnReLU2d | ConvBnReLU3d
  | ConvReLU1d | ConvReLU2d | ConvReLU3d
  | LinearReLU | BNReLU2d | BNReLU3d
  | FusedEval
  deriving DecidableEq, Repr

/-- A live module instance: its class, its training-mode flag, and the
attributes the fusion functions consult (`num_features`, `out_channels`,
`affine`, `track_running_stats`).  Fused containers record their
sub-modules in `children`. -/
structure Module where
  mtype : ModType
  training : Bool
  num_features : Nat
  out_channels : Nat
  affine : Bool
  track_running_stats : Bool
  children : List Module

/-- Construct a fused container of class `t` holding two sub-modules
(the behaviour of the two-argument `torch.nn.intrinsic` constructors:
a new instance combining the inputs). -/
def mkFused2 (t : ModType) (m1 m2 : Module) : Module :=
  { mtype := t, training := m1.training, num_features := m1.num_features,
    out_channels := m1.out_channels, affine := m1.affine,
    track_running_stats := m1.track_running_stats, children := [m1, m2] }

/-- Construct a fused container of class `t` holding three sub-modules. -/
def mkFused3 (t : ModType) (m1 m2 m3 : Module) : Module :=
  { mtype := t, training := m1.training, num_features := m1.num_features,
    out_channels := m1.out_channels, affine := m1.affine,
    track_running_stats := m1.track_running_stats, children := [m1, m2, m3] }

namespace nni

/-- Model of `torch.nn.intrinsic.ConvBn1d`. -/
def ConvBn1d (m1 m2 : Module) : Module := mkFused2 ModType.ConvBn1d m1 m2

/-- Model of `torch.nn.intrinsic.ConvBn2d`. -/
def ConvBn2d (m1 m2 : Module) : Module := mkFused2 ModType.ConvBn2d m1 m2

/-- Model of `torch.nn.intrinsic.ConvBn3d`. -/
def ConvBn3d (m1 m2 : Module) : Module := mkFused2 ModType.ConvBn3d m1 m2

/-- Model of `torch.nn.intrinsic.ConvBnReLU1d`. -/
def ConvBnReLU1d (m1 m2 m3 : Module) : Module := mkFused3 ModType.ConvBnReLU1d m1 m2 m3

/-- Model of `torch.nn.intrinsic.ConvBnReLU2d`. -/
def ConvBnReLU2d (m1 m2 m3 : Module) : Module := mkFused3 ModType.ConvBnReLU2d m1 m2 m3

/-- Model of `torch.nn.intrinsic.ConvBnReLU3d`. -/
def ConvBnReLU3d (m1 m2 m3 : Module) : Module := mkFused3 ModType.ConvBnReLU3d m1 m2 m3

/-- Model of `torch.nn.intrinsic.ConvReLU1d`. -/
def ConvReLU1d (m1 m2 : Module) : Module := mkFused2 ModType.ConvReLU1d m1 m2

/-- Model of `torch.nn.intrinsic.ConvReLU2d`. -/
def ConvReLU2d (m1 m2 : Module) : Module := mkFused2 ModType.ConvReLU2d m1 m2

/-- Model of `torch.nn.intrinsic.ConvReLU3d`. -/
def ConvReLU3d (m1 m2 : Module) : Module := mkFused2 ModType.ConvReLU3d m1 m2

/-- Model of `torch.nn.intrinsic.LinearReLU`. -/
def LinearReLU (m1 m2 : Module) : Module := mkFused2 ModType.LinearReLU m1 m2

/-- Model of `torch.nn.intrinsic.BNReLU2d`. -/
def BNReLU2d (m1 m2 : Module) : Module := mkFused2 ModType.BNReLU2d m1 m2

/-- Model of `torch.nn.intrinsic.BNReLU3d`. -/
def BNReLU3d (m1 m2 : Module) : Module := mkFused2 ModType.BNReLU3d m1 m2

end nni

/-- Modelled from the spec: `torch.nn.utils.fusion.fuse_conv_bn_eval` is an
external framework folding routine not present in src/; per the spec it
performs the framework's own batch-norm folding and returns the fused
(eval-mode) module.  The numerics are out of scope, so it is modelled as a
total constructor producing the folded module. -/
def fuse_conv_bn_eval (conv bn : Module) : Module :=
  { mtype := ModType.FusedEval, training := conv.training,
    num_features := conv.num_features, out_channels := conv.out_channels,
    affine := conv.affine, track_running_stats := conv.track_running_stats,
    children := [conv, bn] }

/-- Modelled from the spec: `torch.nn.utils.fusion.fuse_linear_bn_eval` is an
external framework folding routine not present in src/; modelled as a total
constructor producing the folded module. -/
def fuse_linear_bn_eval (linear bn : Module) : Module :=
  { mtype := ModType.FusedEval, training := linear.training,
    num_features := linear.num_features, out_channels := linear.out_channels,
    affine := linear.affine, track_running_stats := linear.track_running_stats,
    children := [linear, bn] }

/-- `fused_module_class_map` of `fuse_conv_bn`: conv class to qat fused class. -/
def fused_module_class_map (t : ModType) : Option ModType :=
  match t with
  | ModType.Conv1d => some ModType.ConvBn1d
  | ModType.Conv2d => some ModType.ConvBn2d
  | ModType.Conv3d => some ModType.ConvBn3d
  | _ => none

/-- `fuse_conv_bn(is_qat, conv, bn)`: asserts the two modules share a
training mode; in qat mode additionally asserts `conv.training`, matching
channel counts, `affine` and `track_running_stats`, then builds the fused
train container (or raises `NotImplementedError` for an unknown conv
class); in eval mode delegates to `fuse_conv_bn_eval`.  Assertion failures
and raised exceptions are modelled as `Except.error`. -/
def fuse_conv_bn (is_qat : Bool) (conv bn : Module) : Except String Module :=
  if conv.training ≠ bn.training then
    Except.error "Conv and BN both must be in the same mode (train or eval)."
  else if is_qat then
    if ¬ conv.training then
      Except.error "qat is only supported when conv.training is True currently"
    else if bn.num_features ≠ conv.out_channels then
      Except.error "Output channel of Conv2d must match num_features of BatchNorm2d"
    else if ¬ bn.affine then
      Except.error "Only support fusing BatchNorm2d with affine set to True"
    else if ¬ bn.track_running_stats then
      Except.error "Only support fusing BatchNorm2d with tracking_running_stats set to True"
    else
      match fused_module_class_map conv.mtype with
      | some c => Except.ok (mkFused2 c conv bn)
      | none => Except.error "Cannot fuse train modules"
  else
    Except.ok (fuse_conv_bn_eval conv bn)

/-- `map_to_fused_module_train` of `fuse_conv_bn_relu`. -/
def map_to_fused_module_train (t : ModType) : Option ModType :=
  match t with
  | ModType.Conv1d => some ModType.ConvBnReLU1d
  | ModType.Conv2d => some ModType.ConvBnReLU2d
  | ModType.Conv3d => some ModType.ConvBnReLU3d
  | _ => none

/-- `map_to_fused_module_eval` of `fuse_conv_bn_relu`. -/
def map_to_fused_module_eval (t : ModType) : Option ModType :=
  match t with
  | ModType.Conv1d => some ModType.ConvReLU1d
  | ModType.Conv2d => some ModType.ConvReLU2d
  | ModType.Conv3d => some ModType.ConvReLU3d
  | _ => none

/-- `fuse_conv_bn_relu(is_qat, conv, bn, relu)`: asserts all three modules
share a training mode; in qat mode checks the same extra preconditions as
`fuse_conv_bn` and builds the train container; in eval mode folds conv+bn
and wraps the result with the relu in the eval container. -/
def fuse_conv_bn_relu (is_qat : Bool) (conv bn relu : Module) : Except String Module :=
  if ¬ (conv.training = bn.training ∧ bn.training = relu.training) then
    Except.error "Conv and BN both must be in the same mode (train or eval)."
  else if is_qat then
    if ¬ conv.training then
      Except.error "qat is only supported when conv.training is True currently"
    else if bn.num_features ≠ conv.out_channels then
      Except.error "Output channel of Conv must match num_features of BatchNorm"
    else if ¬ bn.affine then
      Except.error "Only support fusing BatchNorm with affine set to True"
    else if ¬ bn.track_running_stats then
      Except.error "Only support fusing BatchNorm with tracking_running_stats set to True"
    else
      match map_to_fused_module_train conv.mtype with
      | some c => Except.ok (mkFused3 c conv bn relu)
      | none => Except.error "Cannot fuse train modules"
  else
    match map_to_fused_module_eval conv.mtype with
    | some c => Except.ok (mkFused2 c (fuse_conv_bn_eval conv bn) relu)
    | none => Except.error "Cannot fuse eval modules"

/-- `fuse_linear_bn(is_qat, linear, bn)`: asserts matching training modes;
the qat path asserts `linear.training` and then unconditionally raises
(training-mode linear+bn fusion is unimplemented); the eval path delegates
to `fuse_linear_bn_eval`. -/
def fuse_linear_bn (is_qat : Bool) (linear bn : Module) : Except String Module :=
  if linear.training ≠ bn.training then
    Except.error "Linear and BN both must be in the same mode (train or eval)."
  else if is_qat then
    if ¬ linear.training then
      Except.error "qat is only supported when linear.training is True currently"
    else
      Except.error "Fusing Linear+BatchNorm not yet supported in training."
  else
    Except.ok (fuse_linear_bn_eval linear bn)

/-- `fuse_convtranspose_bn(is_qat, convt, bn)`: asserts matching training
modes; the qat path asserts `convt.training` and then unconditionally
raises; the eval path delegates to the framework folding routine (same
model as `fuse_conv_bn_eval`, transpose flag out of scope). -/
def fuse_convtranspose_bn (is_qat : Bool) (convt bn : Module) : Except String Module :=
  if convt.training ≠ bn.training then
    Except.error "ConvTranspose and BN both must be in the same mode (train or eval)."
  else if is_qat then
    if ¬ convt.training then
      Except.error "qat is only supported when convt.training is True currently"
    else
      Except.error "Fusing ConvTranspose+BatchNorm not yet supported in training."
  else
    Except.ok (fuse_conv_bn_eval convt bn)

/-- `sequential_wrapper2(sequential)`: returns a fuser method that ignores
the `is_qat` flag and always returns the sequential combining the two input
modules (never raises, hence always `Except.ok`). -/
def sequential_wrapper2 (sequential : Module → Module → Module) :
    Bool → Module → Module → Except String Module :=
  fun _ m1 m2 => Except.ok (sequential m1 m2)

/-- `reverse_sequential_wrapper2(sequential)`: like `sequential_wrapper2`
but combines the two input modules in reversed order. -/
def reverse_sequential_wrapper2 (sequential : Module → Module → Module) :
    Bool → Module → Module → Except String Module :=
  fun _ m1 m2 => Except.ok (sequential m2 m1)

/-- `reverse2(f)`: swaps the two module arguments. -/
def reverse2 (f : Bool → Module → Module → Except String Module) :
    Bool → Module → Module → Except String Module :=
  fun is_qat x y => f is_qat y x

/-- `reverse3(f)`: second argument is a pair `(y, z)`; calls `f` on
`(is_qat, z, y, x)`. -/
def reverse3 (f : Bool → Module → Module → Module → Except String Module) :
    Bool → Module → (Module × Module) → Except String Module :=
  fun is_qat x w => f is_qat w.2 w.1 x

/-- A dictionary key: either a flat tuple of layer types (`op_list` form)
or a nested pattern tuple (`Pattern` form such as
`(ReLU, (BatchNorm1d, Conv1d))`). -/
inductive Pattern where
  | atom (t : ModType)
  | pair (a b : Pattern)
  | triple (a b c : Pattern)
  deriving DecidableEq, Repr

/-- The flat two-type key `(a, b)`. -/
def pat2 (a b : ModType) : Pattern := Pattern.pair (Pattern.atom a) (Pattern.atom b)

/-- The flat three-type key `(a, b, c)`. -/
def pat3 (a b c : ModType) : Pattern :=
  Pattern.triple (Pattern.atom a) (Pattern.atom b) (Pattern.atom c)

/-- A registered fuser method: a two-module function, a three-module
function, or a function whose second module argument is a nested pair
(the `reverse3` shape). -/
inductive FuserMethod where
  | f2 (f : Bool → Module → Module → Except String Module)
  | f3 (f : Bool → Module → Module → Module → Except String Module)
  | f2n (f : Bool → Module → (Module × Module) → Except String Module)

/-- A Python dict from patterns to fuser methods, as an association list;
lookup takes the first (leftmost) binding of a key. -/
abbrev FDict := List (Pattern × FuserMethod)

/-- `d.get(k, None)`: first binding of `k` in `d`, if any. -/
def dictGet (d : FDict) (k : Pattern) : Option FuserMethod :=
  match d with
  | [] => none
  | (k2, v) :: rest => if k2 = k then some v else dictGet rest k

/-- Modelled from the spec: `torch.ao.quantization.utils.get_combined_dict`
is an external dependency not present in src/; per the spec the override
mapping is merged over the default table with the override winning on key
collision, and neither input dict is mutated.  With first-match lookup
this is association-list prepending of the override. -/
def get_combined_dict (default_dict additional_dict : FDict) : FDict :=
  additional_dict ++ default_dict

/-- `DEFAULT_OP_LIST_TO_FUSER_METHOD`: the list-form table, in source
order. -/
def DEFAULT_OP_LIST_TO_FUSER_METHOD : FDict := [
  (pat2 ModType.Conv1d ModType.BatchNorm1d, FuserMethod.f2 fuse_conv_bn),
  (pat3 ModType.Conv1d ModType.BatchNorm1d ModType.ReLU, FuserMethod.f3 fuse_conv_bn_relu),
  (pat2 ModType.Conv2d ModType.BatchNorm2d, FuserMethod.f2 fuse_conv_bn),
  (pat3 ModType.Conv2d ModType.BatchNorm2d ModType.ReLU, FuserMethod.f3 fuse_conv_bn_relu),
  (pat2 ModType.Conv3d ModType.BatchNorm3d, FuserMethod.f2 fuse_conv_bn),
  (pat3 ModType.Conv3d ModType.BatchNorm3d ModType.ReLU, FuserMethod.f3 fuse_conv_bn_relu),
  (pat2 ModType.Conv1d ModType.ReLU, FuserMethod.f2 (sequential_wrapper2 nni.ConvReLU1d)),
  (pat2 ModType.Conv2d ModType.ReLU, FuserMethod.f2 (sequential_wrapper2 nni.ConvReLU2d)),
  (pat2 ModType.Conv3d ModType.ReLU, FuserMethod.f2 (sequential_wrapper2 nni.ConvReLU3d)),
  (pat2 ModType.Linear ModType.BatchNorm1d, FuserMethod.f2 fuse_linear_bn),
  (pat2 ModType.Linear ModType.ReLU, FuserMethod.f2 (sequential_wrapper2 nni.LinearReLU)),
  (pat2 ModType.BatchNorm2d ModType.ReLU, FuserMethod.f2 (sequential_wrapper2 nni.BNReLU2d)),
  (pat2 ModType.BatchNorm3d ModType.ReLU, FuserMethod.f2 (sequential_wrapper2 nni.BNReLU3d)),
  (pat2 ModType.ConvTranspose1d ModType.BatchNorm1d, FuserMethod.f2 fuse_convtranspose_bn),
  (pat2 ModType.ConvTranspose2d ModType.BatchNorm2d, FuserMethod.f2 fuse_convtranspose_bn),
  (pat2 ModType.ConvTranspose3d ModType.BatchNorm3d, FuserMethod.f2 fuse_convtranspose_bn)]

/-- `get_fuser_method(op_list, additional_fuser_method_mapping=None)`:
replaces a missing override by the empty dict, merges it over the default
table with `get_combined_dict`, looks the key up, and asserts the result
is not `None` (the assertion failure is modelled as `Except.error`). -/
def get_fuser_method (op_list : Pattern)
    (additional_fuser_method_mapping : Option FDict) : Except String FuserMethod :=
  let afm : FDict :=
    match additional_fuser_method_mapping with
    | none => []
    | some m => m
  let all_mappings := get_combined_dict DEFAULT_OP_LIST_TO_FUSER_METHOD afm
  match dictGet all_mappings op_list with
  | some fuser_method => Except.ok fuser_method
  | none => Except.error "did not find fuser method for the given op list"

/-- `DEFAULT_PATTERN_TO_FUSER_METHOD`: the reversed-pattern table, in
source order. -/
def DEFAULT_PATTERN_TO_FUSER_METHOD : FDict := [
  (pat2 ModType.BatchNorm1d ModType.Conv1d, FuserMethod.f2 (reverse2 fuse_conv_bn)),
  (Pattern.pair (Pattern.atom ModType.ReLU) (pat2 ModType.BatchNorm1d ModType.Conv1d),
    FuserMethod.f2n (reverse3 fuse_conv_bn_relu)),
  (pat2 ModType.BatchNorm2d ModType.Conv2d, FuserMethod.f2 (reverse2 fuse_conv_bn)),
  (Pattern.pair (Pattern.atom ModType.ReLU) (pat2 ModType.BatchNorm2d ModType.Conv2d),
    FuserMethod.f2n (reverse3 fuse_conv_bn_relu)),
  (pat2 ModType.BatchNorm3d ModType.Conv3d, FuserMethod.f2 (reverse2 fuse_conv_bn)),
  (Pattern.pair (Pattern.atom ModType.ReLU) (pat2 ModType.BatchNorm3d ModType.Conv3d),
    FuserMethod.f2n (reverse3 fuse_conv_bn_relu)),
  (pat2 ModType.ReLU ModType.Conv1d, FuserMethod.f2 (reverse_sequential_wrapper2 nni.ConvReLU1d)),
  (pat2 ModType.ReLU ModType.Conv2d, FuserMethod.f2 (reverse_sequential_wrapper2 nni.ConvReLU2d)),
  (pat2 ModType.ReLU ModType.Conv3d, FuserMethod.f2 (reverse_sequential_wrapper2 nni.ConvReLU3d)),
  (pat2 ModType.BatchNorm1d ModType.Linear, FuserMethod.f2 (reverse2 fuse_linear_bn)),
  (pat2 ModType.ReLU ModType.Linear, FuserMethod.f2 (reverse_sequential_wrapper2 nni.LinearReLU)),
  (pat2 ModType.ReLU ModType.BatchNorm2d, FuserMethod.f2 (reverse_sequential_wrapper2 nni.BNReLU2d)),
  (pat2 ModType.ReLU ModType.BatchNorm3d, FuserMethod.f2 (reverse_sequential_wrapper2 nni.BNReLU3d)),
  (pat2 ModType.BatchNorm1d ModType.ConvTranspose1d, FuserMethod.f2 (reverse2 fuse_convtranspose_bn)),
  (pat2 ModType.BatchNorm2d ModType.ConvTranspose2d, FuserMethod.f2 (reverse2 fuse_convtranspose_bn)),
  (pat2 ModType.BatchNorm3d ModType.ConvTranspose3d, FuserMethod.f2 (reverse2 fuse_convtranspose_bn))]

/-- `get_fuser_method_new(op_pattern, fuser_method_mapping=None)`: replaces
a missing mapping by the default pattern table (note: no merging — a
caller-supplied mapping is used on its own), looks the pattern up, and
asserts the result is not `None`. -/
def get_fuser_method_new (op_pattern : Pattern)
    (fuser_method_mapping : Option FDict) : Except String FuserMethod :=
  let m : FDict :=
    match fuser_method_mapping with
    | none => DEFAULT_PATTERN_TO_FUSER_METHOD
    | some m => m
  match dictGet m op_pattern with
  | some fuser_method => Except.ok fuser_method
  | none => Except.error "did not find fuser method for the given op pattern"

/-- Whether a call outcome is a raised assertion/exception. -/
def isError {α : Type} (r : Except String α) : Bool :=
  match r with
  | Except.error _ => true
  | Except.ok _ => false

/-- Reverse-traversal form of a list key: `(a, b)` becomes `(b, a)` and
`(a, b, c)` becomes `(c, (b, a))`, as in the source's two tables. -/
def revKey : Pattern → Pattern
  | Pattern.pair a b => Pattern.pair b a
  | Pattern.triple a b c => Pattern.pair c (Pattern.pair b a)
  | p => p

/-- The reversed method `g` computes the same fusions as the forward
method `f` applied to the arguments in forward order. -/
def revEquiv : FuserMethod → FuserMethod → Prop
  | FuserMethod.f2 g, FuserMethod.f2 f => ∀ q x y, g q x y = f q y x
  | FuserMethod.f2n g, FuserMethod.f3 f => ∀ q x y z, g q x (y, z) = f q z y x
  | _, _ => False

/-- The dictionaries a lookup call can reach: the module-level default
table and the caller-supplied mapping (or `None`). -/
structure TablesState where
  default_table : FDict
  caller_mapping : Option FDict

/-- `get_fuser_method` with the dictionaries it can reach threaded as
explicit state, so that mutation would be observable: the call returns its
result together with the tables as they are after the call.
`get_combined_dict` copies the default dict and updates only the copy, so
no operation writes to either input table. -/
def get_fuser_method_st (op_list : Pattern) (s : TablesState) :
    Except String FuserMethod × TablesState :=
  let afm : FDict :=
    match s.caller_mapping with
    | none => []
    | some m => m
  let all_mappings := get_combined_dict s.default_table afm
  (match dictGet all_mappings op_list with
   | some fuser_method => Except.ok fuser_method
   | none => Except.error "did not find fuser method for the given op list", s)

/-- `get_fuser_method_new` with its reachable dictionaries threaded as
explicit state. -/
def get_fuser_method_new_st (op_pattern : Pattern) (s : TablesState) :
    Except String FuserMethod × TablesState :=
  let m : FDict :=
    match s.caller_mapping with
    | none => s.default_table
    | some m => m
  (match dictGet m op_pattern with
   | some fuser_method => Except.ok fuser_method
   | none => Except.error "did not find fuser method for the given op pattern", s)

/-- A bare module instance of class `t` with training flag `tr`,
`num_features` `nf` and `out_channels` `oc` (affine, tracking stats). -/
def mkSimple (t : ModType) (tr : Bool) (nf oc : Nat) : Module :=
  { mtype := t, training := tr, num_features := nf, out_channels := oc,
    affine := true, track_running_stats := true, children := [] }

/-- A training-mode `Conv1d` with 8 output channels. -/
def conv1dTrainM : Module := mkSimple ModType.Conv1d true 0 8

/-- An eval-mode `Conv1d` with 8 output channels. -/
def conv1dEvalM : Module := mkSimple ModType.Conv1d false 0 8

/-- A training-mode `BatchNorm1d` with 8 features. -/
def bn1dTrainM : Module := mkSimple ModType.BatchNorm1d true 8 0

/-- An eval-mode `BatchNorm1d` with 8 features. -/
def bn1dEvalM : Module := mkSimple ModType.BatchNorm1d false 8 0

/-- A training-mode `ReLU`. -/
def reluTrainM : Module := mkSimple ModType.ReLU true 0 0

/-- An eval-mode `ReLU`. -/
def reluEvalM : Module := mkSimple ModType.ReLU false 0 0

/-- A training-mode `Linear` with 10 output channels. -/
def linearTrainM : Module := mkSimple ModType.Linear true 0 10

/-- A training-mode `ConvTranspose1d`. -/
def convt1dTrainM : Module := mkSimple ModType.ConvTranspose1d true 0 8

/-- First-match lookup distributes over the append used by
`get_combined_dict`: a key bound in the front dict takes its front
binding, otherwise the back dict is consulted. -/
theorem dictGet_append (a b : FDict) (k : Pattern) :
    dictGet (a ++ b) k =
      match dictGet a k with
      | some f => some f
      | none => dictGet b k := by
  induction a with
  | nil => simp [dictGet]
  | cons hd tl ih =>
    obtain ⟨k2, v⟩ := hd
    by_cases h : k2 = k
    · simp [dictGet, h]
    · simpa [dictGet, h] using ih

/-- An override dict binding a key that is also present in the default
list table to a different method. -/
def ovrDict : FDict :=
  [(pat2 ModType.Conv1d ModType.BatchNorm1d, FuserMethod.f2 fuse_linear_bn)]

/-- A caller-supplied pattern mapping that does not bind
`(BatchNorm1d, Conv1d)`. -/
def suppliedMap : FDict :=
  [(pat2 ModType.ReLU ModType.Conv1d,
    FuserMethod.f2 (reverse_sequential_wrapper2 nni.ConvReLU1d))]

/-- C1: `get_fuser_method(op_list, additional_fuser_method_mapping)` looks
the key up in the default table merged with the override mapping — the
override's entry wins whenever the same key is present in both — and
returns the matched fusion callable: if the override binds the key, the
override's method is returned (whether or not the default table also binds
it); if the override does not bind the key but the default table does, the
default's method is returned. -/
theorem get_fuser_method_merge_contract (k : Pattern) (afm : FDict) :
    (∀ f, dictGet afm k = some f → get_fuser_method k (some afm) = Except.ok f) ∧
    (dictGet afm k = none →
      ∀ f, dictGet DEFAULT_OP_LIST_TO_FUSER_METHOD k = some f →
        get_fuser_method k (some afm) = Except.ok f) := by
  constructor
  · intro f hf
    simp [get_fuser_method, get_combined_dict, dictGet_append, hf]
  · intro hnone f hf
    simp [get_fuser_method, get_combined_dict, dictGet_append, hnone, hf]

/-- C1 witness: with an override rebinding `(Conv1d, BatchNorm1d)` — a key
of the default table — the lookup returns the override's method. -/
theorem get_fuser_method_merge_contract_witness :
    get_fuser_method (pat2 ModType.Conv1d ModType.BatchNorm1d) (some ovrDict) =
      Except.ok (FuserMethod.f2 fuse_linear_bn) :=
  (get_fuser_method_merge_contract (pat2 ModType.Conv1d ModType.BatchNorm1d)
    ovrDict).1 (FuserMethod.f2 fuse_linear_bn) rfl

/-- C2 counterexample: `(BatchNorm1d, Conv1d)` is present only in the
default pattern table, yet `get_fuser_method_new` called with a
caller-supplied mapping raises instead of returning the default table's
function — no merging happens. -/
theorem get_fuser_method_new_no_merge_cex :
    dictGet DEFAULT_PATTERN_TO_FUSER_METHOD (pat2 ModType.BatchNorm1d ModType.Conv1d) =
      some (FuserMethod.f2 (reverse2 fuse_conv_bn)) ∧
    get_fuser_method_new (pat2 ModType.BatchNorm1d ModType.Conv1d) (some suppliedMap) =
      Except.error "did not find fuser method for the given op pattern" :=
  ⟨rfl, rfl⟩

/-- C2 amended: `get_fuser_method_new` does not merge a caller-supplied
mapping over the default pattern table; the supplied mapping replaces the
table entirely — lookups consult only the supplied mapping, raising when
it lacks the pattern even if the default table binds it — and the default
table is consulted only when the argument is `None`. -/
theorem get_fuser_method_new_replace_contract (k : Pattern) (m : FDict) :
    (∀ f, dictGet m k = some f → get_fuser_method_new k (some m) = Except.ok f) ∧
    (dictGet m k = none → isError (get_fuser_method_new k (some m)) = true) ∧
    (∀ f, dictGet DEFAULT_PATTERN_TO_FUSER_METHOD k = some f →
      get_fuser_method_new k none = Except.ok f) := by
  refine ⟨fun f hf => ?_, fun hnone => ?_, fun f hf => ?_⟩
  · simp [get_fuser_method_new, hf]
  · simp [get_fuser_method_new, hnone, isError]
  · simp [get_fuser_method_new, hf]

/-- C2 amended witness: the supplied mapping's own binding is returned. -/
theorem get_fuser_method_new_replace_contract_witness :
    get_fuser_method_new (pat2 ModType.ReLU ModType.Conv1d) (some suppliedMap) =
      Except.ok (FuserMethod.f2 (reverse_sequential_wrapper2 nni.ConvReLU1d)) :=
  (get_fuser_method_new_replace_contract (pat2 ModType.ReLU ModType.Conv1d)
    suppliedMap).1 (FuserMethod.f2 (reverse_sequential_wrapper2 nni.ConvReLU1d)) rfl

/-- C3: when the pattern is absent from the effective mapping — the merged
dict for `get_fuser_method` (with or without an override), the supplied or
default dict for `get_fuser_method_new` — both lookup functions raise
(the modelled assertion failure) rather than returning a value. -/
theorem unregistered_pattern_raises (k : Pattern) (afm m : FDict) :
    (dictGet (get_combined_dict DEFAULT_OP_LIST_TO_FUSER_METHOD afm) k = none →
      isError (get_fuser_method k (some afm)) = true) ∧
    (dictGet DEFAULT_OP_LIST_TO_FUSER_METHOD k = none →
      isError (get_fuser_method k none) = true) ∧
    (dictGet m k = none → isError (get_fuser_method_new k (some m)) = true) ∧
    (dictGet DEFAULT_PATTERN_TO_FUSER_METHOD k = none →
      isError (get_fuser_method_new k none) = true) := by
  refine ⟨fun h => ?_, fun h => ?_, fun h => ?_, fun h => ?_⟩
  · simp [get_fuser_method, h, isError]
  · simp [get_fuser_method, get_combined_dict, isError, h]
  · simp [get_fuser_method_new, h, isError]
  · simp [get_fuser_method_new, h, isError]

/-- C3 witness: `(Linear, Linear)` is registered nowhere; both lookups
raise on it, with and without a caller-supplied mapping. -/
theorem unregistered_pattern_raises_witness :
    isError (get_fuser_method (pat2 ModType.Linear ModType.Linear) (some ovrDict)) = true ∧
    isError (get_fuser_method_new (pat2 ModType.Linear ModType.Linear) none) = true :=
  ⟨(unregistered_pattern_raises (pat2 ModType.Linear ModType.Linear) ovrDict []).1 rfl,
   (unregistered_pattern_raises (pat2 ModType.Linear ModType.Linear) [] []).2.2.2 rfl⟩

/-- C4 counterexample: `(Conv1d, ReLU)` is registered in the default list
table with `sequential_wrapper2(nni.ConvReLU1d)`, and that registered
function, invoked on modules whose training flags differ (conv in train
mode, relu in eval mode), returns the container without raising — so not
every registered fuser method raises on mismatched training flags. -/
theorem mismatched_training_wrapper_cex :
    dictGet DEFAULT_OP_LIST_TO_FUSER_METHOD (pat2 ModType.Conv1d ModType.ReLU) =
      some (FuserMethod.f2 (sequential_wrapper2 nni.ConvReLU1d)) ∧
    conv1dTrainM.training = true ∧ reluEvalM.training = false ∧
    sequential_wrapper2 nni.ConvReLU1d false conv1dTrainM reluEvalM =
      Except.ok (nni.ConvReLU1d conv1dTrainM reluEvalM) ∧
    sequential_wrapper2 nni.ConvReLU1d true conv1dTrainM reluEvalM =
      Except.ok (nni.ConvReLU1d conv1dTrainM reluEvalM) :=
  ⟨rfl, rfl, rfl, rfl, rfl⟩

/-- C4 amended: the validating fusion functions — `fuse_conv_bn`,
`fuse_conv_bn_relu`, `fuse_linear_bn`, `fuse_convtranspose_bn` — always
raise, for any `is_qat`, when the training flags of their input modules
are not all equal; the sequential-wrapper entries of the tables ignore the
flags and never raise. -/
theorem mismatched_training_fusion_raises (q : Bool) (m1 m2 m3 : Module) :
    (m1.training ≠ m2.training → isError (fuse_conv_bn q m1 m2) = true) ∧
    (¬ (m1.training = m2.training ∧ m2.training = m3.training) →
      isError (fuse_conv_bn_relu q m1 m2 m3) = true) ∧
    (m1.training ≠ m2.training → isError (fuse_linear_bn q m1 m2) = true) ∧
    (m1.training ≠ m2.training → isError (fuse_convtranspose_bn q m1 m2) = true) := by
  refine ⟨fun h => ?_, fun h => ?_, fun h => ?_, fun h => ?_⟩
  · simp [fuse_conv_bn, h, isError]
  · simp [fuse_conv_bn_relu, h, isError]
  · simp [fuse_linear_bn, h, isError]
  · simp [fuse_convtranspose_bn, h, isError]

/-- C4 amended witness: each validating function raises on a train/eval
mix, in both fusion modes. -/
theorem mismatched_training_fusion_raises_witness :
    isError (fuse_conv_bn false conv1dTrainM bn1dEvalM) = true ∧
    isError (fuse_conv_bn_relu true conv1dTrainM bn1dTrainM reluEvalM) = true ∧
    isError (fuse_linear_bn false linearTrainM bn1dEvalM) = true ∧
    isError (fuse_convtranspose_bn true convt1dTrainM bn1dEvalM) = true :=
  ⟨(mismatched_training_fusion_raises false conv1dTrainM bn1dEvalM reluEvalM).1
      (by decide),
   (mismatched_training_fusion_raises true conv1dTrainM bn1dTrainM reluEvalM).2.1
      (by decide),
   (mismatched_training_fusion_raises false linearTrainM bn1dEvalM reluEvalM).2.2.1
      (by decide),
   (mismatched_training_fusion_raises true convt1dTrainM bn1dEvalM reluEvalM).2.2.2
      (by decide)⟩

/-- C5: in quantization-aware-training mode, `fuse_linear_bn` and
`fuse_convtranspose_bn` raise for every pair of input modules — the qat
path either fails its assertions or reaches the unconditional
not-yet-supported exception — and never return a fused module. -/
theorem qat_linear_convtranspose_always_raise (linear convt bn : Module) :
    isError (fuse_linear_bn true linear bn) = true ∧
    isError (fuse_convtranspose_bn true convt bn) = true := by
  constructor
  · unfold fuse_linear_bn
    split_ifs <;> simp_all [isError]
  · unfold fuse_convtranspose_bn
    split_ifs <;> simp_all [isError]

/-- C7: the function returned by `sequential_wrapper2(S)` ignores the
`is_qat` flag and all module attributes: for every flag value and all
modules it returns `S(m1, m2)`, the container combining the two inputs,
without raising. -/
theorem sequential_wrapper2_contract (S : Module → Module → Module)
    (is_qat : Bool) (m1 m2 : Module) :
    sequential_wrapper2 S is_qat m1 m2 = Except.ok (S m1 m2) := rfl

/-- A table entry evaluates successfully in post-training mode: invoking
its method with `is_qat = False` on modules whose classes match the key —
a flat pair, a flat triple, or a nested pattern `(t1, (t2, t3))` whose
method takes the pair as one argument — and whose training flags agree
returns a single fused module. -/
def entryEvalOk : Pattern × FuserMethod → Prop
  | (Pattern.pair (Pattern.atom t1) (Pattern.atom t2), FuserMethod.f2 f) =>
      ∀ m1 m2 : Module, m1.mtype = t1 → m2.mtype = t2 → m1.training = m2.training →
        ∃ fused, f false m1 m2 = Except.ok fused
  | (Pattern.triple (Pattern.atom t1) (Pattern.atom t2) (Pattern.atom t3), FuserMethod.f3 f) =>
      ∀ m1 m2 m3 : Module, m1.mtype = t1 → m2.mtype = t2 → m3.mtype = t3 →
        m1.training = m2.training → m2.training = m3.training →
        ∃ fused, f false m1 m2 m3 = Except.ok fused
  | (Pattern.pair (Pattern.atom t1) (Pattern.pair (Pattern.atom t2) (Pattern.atom t3)),
      FuserMethod.f2n f) =>
      ∀ m1 m2 m3 : Module, m1.mtype = t1 → m2.mtype = t2 → m3.mtype = t3 →
        m1.training = m2.training → m2.training = m3.training →
        ∃ fused, f false m1 (m2, m3) = Except.ok fused
  | _ => False

/-- C6 counterexample: `(Linear, BatchNorm1d)` is registered in the
default list table with `fuse_linear_bn`; invoking it on a training-mode
`Linear` and a training-mode `BatchNorm1d` — correctly typed, training
flags agreeing — with `is_qat = True` raises rather than returning a
fused module, so the claim fails when quantified over every `is_qat`. -/
theorem registered_qat_entry_raises_cex :
    dictGet DEFAULT_OP_LIST_TO_FUSER_METHOD (pat2 ModType.Linear ModType.BatchNorm1d) =
      some (FuserMethod.f2 fuse_linear_bn) ∧
    linearTrainM.mtype = ModType.Linear ∧ bn1dTrainM.mtype = ModType.BatchNorm1d ∧
    linearTrainM.training = bn1dTrainM.training ∧
    isError (fuse_linear_bn true linearTrainM bn1dTrainM) = true :=
  ⟨rfl, rfl, rfl, rfl, rfl⟩

/-- C6 amended: in post-training mode (`is_qat = False`), every registered
entry of both default tables — the list table and the reversed-pattern
table — invoked with module instances whose classes match the pattern and
whose training flags agree, returns a single fused module instance without
raising.  (In qat mode this fails: the `(Linear, BatchNorm1d)` entry
raises unconditionally, and the conv+bn entries impose further
preconditions.) -/
theorem registered_entries_eval_ok :
    ∀ e, e ∈ DEFAULT_OP_LIST_TO_FUSER_METHOD ∨ e ∈ DEFAULT_PATTERN_TO_FUSER_METHOD →
      entryEvalOk e := by
  rintro e (he | he)
  · simp only [DEFAULT_OP_LIST_TO_FUSER_METHOD, List.mem_cons, List.not_mem_nil,
      or_false] at he
    rcases he with rfl | rfl | rfl | rfl | rfl | rfl | rfl | rfl | rfl | rfl | rfl |
      rfl | rfl | rfl | rfl | rfl
    · exact fun m1 m2 h1 h2 h3 => ⟨fuse_conv_bn_eval m1 m2, by simp [fuse_conv_bn, h3]⟩
    · exact fun m1 m2 m3 h1 h2 h3 h4 h5 =>
        ⟨mkFused2 ModType.ConvReLU1d (fuse_conv_bn_eval m1 m2) m3,
          by simp [fuse_conv_bn_relu, map_to_fused_module_eval, h1, h4, h5]⟩
    · exact fun m1 m2 h1 h2 h3 => ⟨fuse_conv_bn_eval m1 m2, by simp [fuse_conv_bn, h3]⟩
    · exact fun m1 m2 m3 h1 h2 h3 h4 h5 =>
        ⟨mkFused2 ModType.ConvReLU2d (fuse_conv_bn_eval m1 m2) m3,
          by simp [fuse_conv_bn_relu, map_to_fused_module_eval, h1, h4, h5]⟩
    · exact fun m1 m2 h1 h2 h3 => ⟨fuse_conv_bn_eval m1 m2, by simp [fuse_conv_bn, h3]⟩
    · exact fun m1 m2 m3 h1 h2 h3 h4 h5 =>
        ⟨mkFused2 ModType.ConvReLU3d (fuse_conv_bn_eval m1 m2) m3,
          by simp [fuse_conv_bn_relu, map_to_fused_module_eval, h1, h4, h5]⟩
    · exact fun m1 m2 h1 h2 h3 => ⟨nni.ConvReLU1d m1 m2, rfl⟩
    · exact fun m1 m2 h1 h2 h3 => ⟨nni.ConvReLU2d m1 m2, rfl⟩
    · exact fun m1 m2 h1 h2 h3 => ⟨nni.ConvReLU3d m1 m2, rfl⟩
    · exact fun m1 m2 h1 h2 h3 => ⟨fuse_linear_bn_eval m1 m2, by simp [fuse_linear_bn, h3]⟩
    · exact fun m1 m2 h1 h2 h3 => ⟨nni.LinearReLU m1 m2, rfl⟩
    · exact fun m1 m2 h1 h2 h3 => ⟨nni.BNReLU2d m1 m2, rfl⟩
    · exact fun m1 m2 h1 h2 h3 => ⟨nni.BNReLU3d m1 m2, rfl⟩
    · exact fun m1 m2 h1 h2 h3 => ⟨fuse_conv_bn_eval m1 m2, by simp [fuse_convtranspose_bn, h3]⟩
    · exact fun m1 m2 h1 h2 h3 => ⟨fuse_conv_bn_eval m1 m2, by simp [fuse_convtranspose_bn, h3]⟩
    · exact fun m1 m2 h1 h2 h3 => ⟨fuse_conv_bn_eval m1 m2, by simp [fuse_convtranspose_bn, h3]⟩
  · simp only [DEFAULT_PATTERN_TO_FUSER_METHOD, List.mem_cons, List.not_mem_nil,
      or_false] at he
    rcases he with rfl | rfl | rfl | rfl | rfl | rfl | rfl | rfl | rfl | rfl | rfl |
      rfl | rfl | rfl | rfl | rfl
    · exact fun m1 m2 h1 h2 h3 =>
        ⟨fuse_conv_bn_eval m2 m1, by simp [reverse2, fuse_conv_bn, h3]⟩
    · exact fun m1 m2 m3 h1 h2 h3 h4 h5 =>
        ⟨mkFused2 ModType.ConvReLU1d (fuse_conv_bn_eval m3 m2) m1,
          by simp [reverse3, fuse_conv_bn_relu, map_to_fused_module_eval, h3, h4, h5]⟩
    · exact fun m1 m2 h1 h2 h3 =>
        ⟨fuse_conv_bn_eval m2 m1, by simp [reverse2, fuse_conv_bn, h3]⟩
    · exact fun m1 m2 m3 h1 h2 h3 h4 h5 =>
        ⟨mkFused2 ModType.ConvReLU2d (fuse_conv_bn_eval m3 m2) m1,
          by simp [reverse3, fuse_conv_bn_relu, map_to_fused_module_eval, h3, h4, h5]⟩
    · exact fun m1 m2 h1 h2 h3 =>
        ⟨fuse_conv_bn_eval m2 m1, by simp [reverse2, fuse_conv_bn, h3]⟩
    · exact fun m1 m2 m3 h1 h2 h3 h4 h5 =>
        ⟨mkFused2 ModType.ConvReLU3d (fuse_conv_bn_eval m3 m2) m1,
          by simp [reverse3, fuse_conv_bn_relu, map_to_fused_module_eval, h3, h4, h5]⟩
    · exact fun m1 m2 h1 h2 h3 => ⟨nni.ConvReLU1d m2 m1, rfl⟩
    · exact fun m1 m2 h1 h2 h3 => ⟨nni.ConvReLU2d m2 m1, rfl⟩
    · exact fun m1 m2 h1 h2 h3 => ⟨nni.ConvReLU3d m2 m1, rfl⟩
    · exact fun m1 m2 h1 h2 h3 =>
        ⟨fuse_linear_bn_eval m2 m1, by simp [reverse2, fuse_linear_bn, h3]⟩
    · exact fun m1 m2 h1 h2 h3 => ⟨nni.LinearReLU m2 m1, rfl⟩
    · exact fun m1 m2 h1 h2 h3 => ⟨nni.BNReLU2d m2 m1, rfl⟩
    · exact fun m1 m2 h1 h2 h3 => ⟨nni.BNReLU3d m2 m1, rfl⟩
    · exact fun m1 m2 h1 h2 h3 =>
        ⟨fuse_conv_bn_eval m2 m1, by simp [reverse2, fuse_convtranspose_bn, h3]⟩
    · exact fun m1 m2 h1 h2 h3 =>
        ⟨fuse_conv_bn_eval m2 m1, by simp [reverse2, fuse_convtranspose_bn, h3]⟩
    · exact fun m1 m2 h1 h2 h3 =>
        ⟨fuse_conv_bn_eval m2 m1, by simp [reverse2, fuse_convtranspose_bn, h3]⟩

/-- C6 amended witness: the list table's `(Conv1d, BatchNorm1d)` entry and
the pattern table's nested `(ReLU, (BatchNorm1d, Conv1d))` entry each fuse
eval-mode instances without raising. -/
theorem registered_entries_eval_ok_witness :
    (∃ fused, fuse_conv_bn false conv1dEvalM bn1dEvalM = Except.ok fused) ∧
    (∃ fused, reverse3 fuse_conv_bn_relu false reluEvalM (bn1dEvalM, conv1dEvalM) =
      Except.ok fused) :=
  ⟨registered_entries_eval_ok
      (pat2 ModType.Conv1d ModType.BatchNorm1d, FuserMethod.f2 fuse_conv_bn)
      (Or.inl (List.mem_cons_self _ _)) conv1dEvalM bn1dEvalM rfl rfl rfl,
   registered_entries_eval_ok
      (Pattern.pair (Pattern.atom ModType.ReLU) (pat2 ModType.BatchNorm1d ModType.Conv1d),
        FuserMethod.f2n (reverse3 fuse_conv_bn_relu))
      (Or.inr (List.mem_cons_of_mem _ (List.mem_cons_self _ _)))
      reluEvalM bn1dEvalM conv1dEvalM rfl rfl rfl rfl rfl⟩

/-- C8: the reversed combinators undo the reversed argument order —
`reverse2 f` swaps its two modules, `reverse3 f` unpacks its pair and
calls `f` on the three modules reversed, `reverse_sequential_wrapper2 S`
builds `S` on the swapped pair — the keys of the reversed-pattern table
are exactly the reversed keys of the list table, and every list-table
entry corresponds to a reversed-pattern entry computing the same fusion on
the arguments in forward order. -/
theorem reversed_table_matches_forward :
    (∀ f q x y, reverse2 f q x y = f q y x) ∧
    (∀ f q x y z, reverse3 f q x (y, z) = f q z y x) ∧
    (∀ S q m1 m2, reverse_sequential_wrapper2 S q m1 m2 = Except.ok (S m2 m1)) ∧
    DEFAULT_PATTERN_TO_FUSER_METHOD.map Prod.fst =
      DEFAULT_OP_LIST_TO_FUSER_METHOD.map (fun e => revKey e.1) ∧
    (∀ e ∈ DEFAULT_OP_LIST_TO_FUSER_METHOD,
      ∃ g, dictGet DEFAULT_PATTERN_TO_FUSER_METHOD (revKey e.1) = some g ∧
        revEquiv g e.2) := by
  refine ⟨fun f q x y => rfl, fun f q x y z => rfl, fun S q m1 m2 => rfl, rfl, ?_⟩
  intro e he
  simp only [DEFAULT_OP_LIST_TO_FUSER_METHOD, List.mem_cons, List.not_mem_nil,
    or_false] at he
  rcases he with rfl | rfl | rfl | rfl | rfl | rfl | rfl | rfl | rfl | rfl | rfl |
    rfl | rfl | rfl | rfl | rfl
  all_goals first
    | exact ⟨_, rfl, fun q x y => rfl⟩
    | exact ⟨_, rfl, fun q x y z => rfl⟩

/-- C8 witness: the `(Conv1d, BatchNorm1d)` entry has the reversed entry
`(BatchNorm1d, Conv1d)` computing the same fusion on swapped arguments. -/
theorem reversed_table_matches_forward_witness :
    ∃ g, dictGet DEFAULT_PATTERN_TO_FUSER_METHOD
        (revKey (pat2 ModType.Conv1d ModType.BatchNorm1d)) = some g ∧
      revEquiv g (FuserMethod.f2 fuse_conv_bn) :=
  reversed_table_matches_forward.2.2.2.2
    (pat2 ModType.Conv1d ModType.BatchNorm1d, FuserMethod.f2 fuse_conv_bn)
    (List.mem_cons_self _ _)

/-- C9: the lookups are pure reads — with the reachable dictionaries
threaded as explicit state, each call returns the tables unchanged, and
its result is the pure function of the inputs computed by
`get_fuser_method` / `get_fuser_method_new`. -/
theorem lookups_are_pure_reads (k : Pattern) (s : TablesState) :
    (get_fuser_method_st k s).2 = s ∧
    (get_fuser_method_new_st k s).2 = s ∧
    (s.default_table = DEFAULT_OP_LIST_TO_FUSER_METHOD →
      (get_fuser_method_st k s).1 = get_fuser_method k s.caller_mapping) ∧
    (s.default_table = DEFAULT_PATTERN_TO_FUSER_METHOD →
      (get_fuser_method_new_st k s).1 = get_fuser_method_new k s.caller_mapping) := by
  obtain ⟨dt, cm⟩ := s
  refine ⟨rfl, rfl, fun h => ?_, fun h => ?_⟩
  · cases h
    cases cm <;> rfl
  · cases h
    cases cm <;> rfl

/-- C9 witness: a concrete lookup with an override leaves the state
unchanged and agrees with the pure lookup. -/
theorem lookups_are_pure_reads_witness :
    (get_fuser_method_st (pat2 ModType.Conv1d ModType.BatchNorm1d)
        ⟨DEFAULT_OP_LIST_TO_FUSER_METHOD, some ovrDict⟩).2 =
      ⟨DEFAULT_OP_LIST_TO_FUSER_METHOD, some ovrDict⟩ ∧
    (get_fuser_method_st (pat2 ModType.Conv1d ModType.BatchNorm1d)
        ⟨DEFAULT_OP_LIST_TO_FUSER_METHOD, some ovrDict⟩).1 =
      get_fuser_method (pat2 ModType.Conv1d ModType.BatchNorm1d) (some ovrDict) :=
  ⟨(lookups_are_pure_reads (pat2 ModType.Conv1d ModType.BatchNorm1d)
      ⟨DEFAULT_OP_LIST_TO_FUSER_METHOD, some ovrDict⟩).1,
   (lookups_are_pure_reads (pat2 ModType.Conv1d ModType.BatchNorm1d)
      ⟨DEFAULT_OP_LIST_TO_FUSER_METHOD, some ovrDict⟩).2.2.1 rfl⟩

/-- C10: in qat mode, `fuse_conv_bn` and `fuse_conv_bn_relu` return a
fused module only when `conv.training` is true, `bn.num_features` equals
`conv.out_channels`, `bn.affine` is true and `bn.track_running_stats` is
true, with the conv class one of `Conv1d`/`Conv2d`/`Conv3d`; whenever one
of the four attribute preconditions fails, the call raises. -/
theorem qat_conv_bn_preconditions (conv bn relu : Module) :
    (∀ fused, fuse_conv_bn true conv bn = Except.ok fused →
      conv.training = true ∧ bn.num_features = conv.out_channels ∧ bn.affine = true ∧
      bn.track_running_stats = true ∧
      (conv.mtype = ModType.Conv1d ∨ conv.mtype = ModType.Conv2d ∨
        conv.mtype = ModType.Conv3d)) ∧
    (¬ (conv.training = true ∧ bn.num_features = conv.out_channels ∧ bn.affine = true ∧
        bn.track_running_stats = true) →
      isError (fuse_conv_bn true conv bn) = true) ∧
    (∀ fused, fuse_conv_bn_relu true conv bn relu = Except.ok fused →
      conv.training = true ∧ bn.num_features = conv.out_channels ∧ bn.affine = true ∧
      bn.track_running_stats = true ∧
      (conv.mtype = ModType.Conv1d ∨ conv.mtype = ModType.Conv2d ∨
        conv.mtype = ModType.Conv3d)) ∧
    (¬ (conv.training = true ∧ bn.num_features = conv.out_channels ∧ bn.affine = true ∧
        bn.track_running_stats = true) →
      isError (fuse_conv_bn_relu true conv bn relu) = true) := by
  refine ⟨?_, ?_, ?_, ?_⟩
  · intro fused h
    unfold fuse_conv_bn at h
    split_ifs at h <;>
      cases hmt : conv.mtype <;> simp_all [fused_module_class_map]
  · intro hvio
    unfold fuse_conv_bn
    split_ifs <;> simp_all [isError]
  · intro fused h
    unfold fuse_conv_bn_relu at h
    split_ifs at h <;>
      cases hmt : conv.mtype <;> simp_all [map_to_fused_module_train]
  · intro hvio
    unfold fuse_conv_bn_relu
    split_ifs <;> simp_all [isError]

/-- C10 witness: an eval-mode conv+bn pair violates the qat training
precondition, so the qat call raises. -/
theorem qat_conv_bn_preconditions_witness :
    isError (fuse_conv_bn true conv1dEvalM bn1dEvalM) = true ∧
    isError (fuse_conv_bn_relu true conv1dEvalM bn1dEvalM reluEvalM) = true :=
  ⟨(qat_conv_bn_preconditions conv1dEvalM bn1dEvalM reluEvalM).2.1 (by decide),
   (qat_conv_bn_preconditions conv1dEvalM bn1dEvalM reluEvalM).2.2.2 (by decide)⟩

end FuserMethodMappings
